import Mathlib

/-!
Verification development for the `rattler_bindings` Python module: a driver
around the external `rattler-build` executable.  The module builds the
command-line argument vector from a configuration (`rattler_build`), parses
the structured JSON event log of the child process, and reconciles the log
against the on-disk build/source caches so they can be cleaned up
(`_clean_output`), composed by an opinionated driver
(`optimized_rattler_build`).

The embedding below models:
  * the filesystem as explicit state (lists of directory and file paths),
    threaded through every operation that Python performs via side effects;
  * naive ISO-8601 timestamps and the process-local timezone as a fixed UTC
    offset in seconds (the source obtains the current fixed offset via
    `datetime.now().astimezone().tzinfo`; daylight-saving transitions during
    a run are outside the model);
  * fallible code as values in `Except PyErr`, with one constructor per
    distinct Python exception site;
  * the argument-construction layer as pure list-building functions.

External collaborators (the child process itself, the YAML recipe read, and
the optional `conda_index` capability) appear as inputs or are noted as out
of modelled scope where the code only forwards to them.
-/

/-! ## Filesystem model

Paths are plain strings.  A filesystem is the set of existing directory
paths and existing regular-file paths; the model is set-like (the path
lists are intended to be duplicate-free, and all removal operations remove
every copy). -/

/-- A snapshot of the filesystem: the directories and regular files that
exist.  `_clean_output` threads this state explicitly where the Python code
mutates the real filesystem. -/
structure FS where
  dirs : List String
  files : List String
deriving Repr, DecidableEq, Inhabited

/-- Model of `Path.is_dir`. -/
def FS.isDir (fs : FS) (p : String) : Bool := fs.dirs.contains p

/-- Model of `Path.is_file`. -/
def FS.isFile (fs : FS) (p : String) : Bool := fs.files.contains p

/-- True when `p` is a strict descendant of the directory `root`, i.e.
`root ++ "/"` is a prefix of `p`. -/
def isUnder (root p : String) : Bool := (root ++ "/").data.isPrefixOf p.data

/-- Model of `Path.unlink`: remove the regular file `p`. -/
def FS.unlink (fs : FS) (p : String) : FS :=
  { fs with files := fs.files.filter (fun q => q != p) }

/-- Model of `shutil.rmtree`: remove the directory `p` and everything
below it. -/
def FS.rmtree (fs : FS) (p : String) : FS :=
  { dirs := fs.dirs.filter (fun q => q != p && !isUnder p q),
    files := fs.files.filter (fun q => !isUnder p q) }

/-- True when the directory `p` has no entries: nothing in the filesystem
lies strictly below it (model of `not any(folder.iterdir())`). -/
def FS.dirEmpty (fs : FS) (p : String) : Bool :=
  (fs.dirs ++ fs.files).all (fun q => !isUnder p q)

/-- Model of `_remove_empty_folder`: remove `folder` if it exists and is
empty (`folder.rmdir()` guarded by `is_dir` and emptiness). -/
def _remove_empty_folder (fs : FS) (folder : String) : FS :=
  if fs.isDir folder && fs.dirEmpty folder then
    { fs with dirs := fs.dirs.filter (fun q => q != folder) }
  else fs

/-! ## String helpers mirroring the Python string operations used. -/

/-- Model of `str.removeprefix`: drop `pfx` from the front of `s` when it
is a prefix, otherwise return `s` unchanged. -/
def pyStripPfx (s pfx : String) : String :=
  if pfx.data.isPrefixOf s.data then ⟨s.data.drop pfx.data.length⟩ else s

/-- Model of `str.startswith`. -/
def startsWithStr (s pfx : String) : Bool := pfx.data.isPrefixOf s.data

/-- Split a character list at every character satisfying `p` (separators
are consumed; empty runs are kept). -/
def splitOnPred (p : Char → Bool) (l : List Char) : List (List Char) :=
  match l with
  | [] => [[]]
  | c :: rest =>
    let r := splitOnPred p rest
    if p c then [] :: r
    else
      match r with
      | [] => [[c]]
      | h :: t => (c :: h) :: t

/-- Whitespace recognized by `shlex`. -/
def isShWs (c : Char) : Bool :=
  c == ' ' || c == '\t' || c == '\n' || c == Char.ofNat 13

/-- Model of `shlex.split` restricted to inputs that contain no quote or
escape characters: split on runs of whitespace and drop empty tokens.  The
source feeds it the path announced on a `Copying source from url:` log
line; quoting inside that path is outside the modelled scope. -/
def shlex_split_ws (s : String) : List String :=
  ((splitOnPred isShWs s.data).filter (fun t => t != [])).map
    (fun t => (⟨t⟩ : String))

/-- The final path component of `p` (the part after the last slash). -/
def baseName (p : String) : String :=
  match (splitOnPred (fun c => c == '/') p.data).getLast? with
  | some b => (⟨b⟩ : String)
  | none => p

/-- Model of `output_dir.rglob(name)` for a pattern that is a plain file
name without glob metacharacters: every entry (file or directory) strictly
below `root` whose base name equals `name`.  The source always calls it
with the variant string followed by the package extension; glob
metacharacters inside the variant string are outside the modelled scope. -/
def rglobName (fs : FS) (root name : String) : List String :=
  (fs.files ++ fs.dirs).filter (fun p => isUnder root p && baseName p == name)

/-- The apostrophe character, written via its code point. -/
def sqChar : Char := Char.ofNat 39

/-- One-character string holding an apostrophe. -/
def sqStr : String := String.singleton sqChar

/-- One-character string holding a double quote. -/
def dqStr : String := String.singleton (Char.ofNat 34)

/-- Characters `shlex.quote` considers safe: ASCII `\w` plus at-sign,
percent, plus, equals, colon, comma, dot, slash and dash (the stdlib's
`_find_unsafe` regex, which uses `re.ASCII`). -/
def shlexSafe (c : Char) : Bool :=
  c.isAlpha || c.isDigit || c == '_' || c == '@' || c == '%' || c == '+' ||
    c == '=' || c == ':' || c == ',' || c == '.' || c == '/' || c == '-'

/-- Model of `shlex.quote`: return `s` unchanged when every character is
safe, otherwise wrap it in single quotes with every embedded single quote
replaced by the five-character escape. -/
def shlex_quote (s : String) : String :=
  if s = "" then sqStr ++ sqStr
  else if s.data.all shlexSafe then s
  else
    sqStr ++
      String.join (s.data.map (fun c =>
        if c = sqChar then sqStr ++ dqStr ++ sqStr ++ dqStr ++ sqStr
        else String.singleton c)) ++ sqStr

/-! ## Timestamps

`_get_local_ts` receives the `timestamp` field of a log event (an ISO-8601
string with microseconds and a literal `Z`), parses it with
`datetime.strptime(_, "%Y-%m-%dT%H:%M:%S.%fZ")` into a naive datetime, and
runs an `astimezone`/`fromutc` dance against the process-local timezone. -/

/-- A naive datetime, stored as the wall-clock reading interpreted as UTC:
whole epoch seconds plus the fractional microseconds. -/
structure NaiveDT where
  sec : Int
  micros : Nat
deriving Repr, DecidableEq

/-- Leap-year test of the proleptic Gregorian calendar. -/
def isLeapY (y : Nat) : Bool :=
  y % 4 == 0 && (y % 100 != 0 || y % 400 == 0)

/-- Length of month `m` of year `y` (months are 1-based). -/
def daysInMonth (y m : Nat) : Nat :=
  if m == 2 then (if isLeapY y then 29 else 28)
  else if m == 4 || m == 6 || m == 9 || m == 11 then 30
  else 31

/-- Days from 1970-01-01 to the civil date `y-m-d` (valid for years from 1
onward, which is the range `datetime` accepts). -/
def daysFromCivil (y m d : Nat) : Int :=
  let yAdj : Nat := if m ≤ 2 then y - 1 else y
  let era : Nat := yAdj / 400
  let yoe : Nat := yAdj - era * 400
  let mp : Nat := if m > 2 then m - 3 else m + 9
  let doy : Nat := (153 * mp + 2) / 5 + d - 1
  let doe : Nat := yoe * 365 + yoe / 4 - yoe / 100 + doy
  (Int.ofNat (era * 146097 + doe)) - 719468

/-- Parse a digit run of length between `minL` and `maxL` into its value. -/
def parseDigits (l : List Char) (minL maxL : Nat) : Option Nat :=
  if minL ≤ l.length ∧ l.length ≤ maxL ∧ l ≠ [] ∧ l.all Char.isDigit then
    some (l.foldl (fun a c => a * 10 + (c.toNat - 48)) 0)
  else none

/-- Model of `datetime.strptime(s, "%Y-%m-%dT%H:%M:%S.%fZ")`, including the
range validation done by `_strptime` and the `datetime` constructor
(4-digit year at least 1, month 1-12, day valid for the month, hour below
24, minute and second below 60, 1-6 fractional digits right-padded to
microseconds). -/
def strptime_iso_z (s : String) : Option NaiveDT :=
  match splitOnPred (fun c => c == 'T') s.data with
  | [dpart, tpart] =>
    match splitOnPred (fun c => c == '-') dpart with
    | [ys, ms, ds] =>
      match splitOnPred (fun c => c == ':') tpart with
      | [hs, mins, rest] =>
        match splitOnPred (fun c => c == '.') rest with
        | [ss, fz] =>
          match fz.getLast? with
          | some 'Z' =>
            let fdigits := fz.dropLast
            match parseDigits ys 4 4, parseDigits ms 1 2, parseDigits ds 1 2,
                parseDigits hs 1 2, parseDigits mins 1 2, parseDigits ss 1 2,
                parseDigits fdigits 1 6 with
            | some y, some mo, some d, some h, some mi, some sec, some f =>
              if 1 ≤ y ∧ 1 ≤ mo ∧ mo ≤ 12 ∧ 1 ≤ d ∧ d ≤ daysInMonth y mo ∧
                  h ≤ 23 ∧ mi ≤ 59 ∧ sec ≤ 59 then
                some ⟨daysFromCivil y mo d * 86400 +
                        (Int.ofNat (h * 3600 + mi * 60 + sec)),
                      f * 10 ^ (6 - fdigits.length)⟩
              else none
            | _, _, _, _, _, _, _ => none
          | _ => none
        | _ => none
      | _ => none
    | _ => none
  | _ => none

/-- An aware datetime: a wall-clock reading together with its attached
`tzinfo`, modelled as an optional fixed UTC offset in seconds (`none`
models a naive datetime's absent `tzinfo`). -/
structure AwareDT where
  wall : NaiveDT
  tz : Option Int
deriving Repr, DecidableEq

/-- Model of `naive.astimezone(local_tz)` where `local_tz` is the fixed
offset of the system local timezone: the naive wall clock is interpreted
as local time, so re-expressing the instant in that same timezone leaves
the wall clock unchanged and attaches the offset. -/
def astimezoneNaiveLocal (d : NaiveDT) (off : Int) : AwareDT := ⟨d, some off⟩

/-- Model of `tzinfo.fromutc(dt)` for a fixed-offset timezone: the wall
clock is shifted by the offset, the tzinfo is kept. -/
def tzFromutc (off : Int) (d : NaiveDT) : NaiveDT := ⟨d.sec + off, d.micros⟩

/-- Model of `int(aware.timestamp())` for an aware datetime with wall
clock `sec`/`micros` and offset `off`: the timestamp is
`sec + micros/1e6 - off`, and `int()` truncates toward zero. -/
def truncTimestamp (sec : Int) (micros : Nat) (off : Int) : Int :=
  let w := sec - off
  if 0 ≤ w ∨ micros = 0 then w else w + 1

/-- Python exception sites of the module, one constructor per distinct
raise/propagation point reached by the modelled code. -/
inductive PyErr where
  | indexError
  | stopIteration
  | valueErrorStrptime
  | valueErrorTZ
  | valueErrorMismatch
  | valueErrorUnpack
  | runtimeShouldNotHappen
  | runtimeNoSinglePackage (ms : List String)
  | runtimeFailedLogs (fname : String)
deriving Repr, DecidableEq

deriving instance DecidableEq for Except

/-- Model of `_get_local_ts` on the string input used by `_clean_output`:
parse the naive ISO timestamp, attach the process-local fixed offset
`tzOff` via `astimezone`, fail if the resulting `tzinfo` is `None`, then
return `int(tz.fromutc(dt).timestamp())`. -/
def _get_local_ts (iso_dt : String) (tzOff : Int) : Except PyErr Int :=
  match strptime_iso_z iso_dt with
  | none => .error .valueErrorStrptime
  | some d =>
    let updated_dt := astimezoneNaiveLocal d tzOff
    match updated_dt.tz with
    | none => .error .valueErrorTZ
    | some updated_tz =>
      let fu := tzFromutc updated_tz updated_dt.wall
      .ok (truncTimestamp fu.sec fu.micros updated_tz)


/-! ## Log events and module constants. -/

/-- One parsed JSON log record: its `timestamp` field (ISO-8601 string)
and its nested message (`_get_msg` reads the `fields`/`message` path). -/
structure LogEvent where
  timestamp : String
  message : String
deriving Repr, DecidableEq, Inhabited

/-- The source-copy announcement message prefix (`SRC_PREFIX`). -/
def SRC_PFX : String := "Copying source from url: "

/-- The build-variant announcement message prefix (`BLD_PREFIX`). -/
def BLD_PFX : String := "Build variant: "

/-- Model of `Path(p).resolve()`: an absolute path (leading slash) is kept,
a relative one is prefixed with the working directory.  Normalization of
dot segments is outside the modelled scope; the claims do not depend on
it. -/
def pyResolve (cwd p : String) : String :=
  if ['/'].isPrefixOf p.data then p else cwd ++ "/" ++ p

/-! ## Enumerated option types of `rattler_build` (Python `Literal` types),
each with its command-line spelling. -/

/-- The platform literal (`PLATFORM` type alias). -/
inductive PLATFORM where
  | linux64 | linuxAarch64 | win64 | osx64 | osxArm64 | noarch
deriving Repr, DecidableEq

/-- Command-line spelling of a platform. -/
def PLATFORM.str : PLATFORM → String
  | .linux64 => "linux-64"
  | .linuxAarch64 => "linux-aarch64"
  | .win64 => "win-64"
  | .osx64 => "osx-64"
  | .osxArm64 => "osx-arm64"
  | .noarch => "noarch"

/-- The `log_style` literal. -/
inductive LogStyle where
  | fancy | json | plain
deriving Repr, DecidableEq

/-- Command-line spelling of a log style. -/
def LogStyle.str : LogStyle → String
  | .fancy => "fancy"
  | .json => "json"
  | .plain => "plain"

/-- The `color` literal. -/
inductive Color where
  | always | never | auto
deriving Repr, DecidableEq

/-- Command-line spelling of a color mode. -/
def Color.str : Color → String
  | .always => "always"
  | .never => "never"
  | .auto => "auto"

/-- The `test` strategy literal. -/
inductive TestStrategy where
  | skip | native | nativeAndEmulated
deriving Repr, DecidableEq

/-- Command-line spelling of a test strategy. -/
def TestStrategy.str : TestStrategy → String
  | .skip => "skip"
  | .native => "native"
  | .nativeAndEmulated => "native-and-emulated"

/-- The `skip_existing` literal of the full build function. -/
inductive SkipMode where
  | smNone | smLocal | smAll
deriving Repr, DecidableEq

/-- Command-line spelling of a skip-existing mode. -/
def SkipMode.str : SkipMode → String
  | .smNone => "none"
  | .smLocal => "local"
  | .smAll => "all"

/-- The `package_format` literal. -/
inductive PackageFormat where
  | tarBz2 | conda
deriving Repr, DecidableEq

/-- Command-line spelling of a package format. -/
def PackageFormat.str : PackageFormat → String
  | .tarBz2 => "tar-bz2"
  | .conda => "conda"

/-- The `wrap_log_lines` literal (the strings `true` and `false`). -/
inductive WrapLL where
  | wtrue | wfalse
deriving Repr, DecidableEq

/-- Command-line spelling of a wrap-log-lines value. -/
def WrapLL.str : WrapLL → String
  | .wtrue => "true"
  | .wfalse => "false"

/-! ## The configuration record of `rattler_build` and the
argument-construction layer, in the emission order of the source. -/

/-- The full parameter record of `rattler_build`.  Paths are strings;
`verbose` is the verbosity count; `extra_meta` is the metadata map in
insertion order (`None` is the empty list). -/
structure RBConfig where
  recipe : String
  recipe_dir : Option String
  up_to : Option String
  build_platform : PLATFORM
  target_platform : Option PLATFORM
  host_platform : PLATFORM
  channels : List String
  variant_config : Option String
  verbose : Nat
  quiet : Bool
  ignore_recipe_variants : Bool
  log_style : LogStyle
  render_only : Bool
  with_solve : Bool
  wrap_log_lines : Option WrapLL
  color : Color
  keep_build : Bool
  no_build_id : Bool
  compression_threads : Option Int
  experimental : Bool
  extra_meta : List (String × String)
  package_format : PackageFormat
  package_compression : Option Int
  no_include_recipe : Bool
  no_test : Bool
  test : TestStrategy
  color_build_log : Bool
  output_dir : String
  skip_existing : SkipMode
  noarch_build_platform : Option PLATFORM
deriving Repr, DecidableEq

/-- The resolved executable path
`Path(conda_prefix).resolve() / "bin" / "rattler-build"`. -/
def rb_exec (cwd conda_prefix : String) : String :=
  pyResolve cwd conda_prefix ++ "/bin/rattler-build"

/-- The fixed head of the argument list (executable, subcommand, and the
always-emitted flag/value pairs, in source order). -/
def rb_base (cwd conda_prefix : String) (cfg : RBConfig) : List String :=
  [rb_exec cwd conda_prefix, "build",
   "--recipe", pyResolve cwd cfg.recipe,
   "--build-platform", cfg.build_platform.str,
   "--host-platform", cfg.host_platform.str,
   "--log-style", cfg.log_style.str,
   "--color", cfg.color.str,
   "--test", cfg.test.str,
   "--output-dir", pyResolve cwd cfg.output_dir,
   "--skip-existing", cfg.skip_existing.str]

/-- One `--channel` flag per configured channel, in order. -/
def rb_channels (cfg : RBConfig) : List String :=
  cfg.channels.flatMap (fun c => ["--channel", c])

/-- One bare `--verbose` per verbosity level. -/
def rb_verbose (cfg : RBConfig) : List String :=
  List.replicate cfg.verbose "--verbose"

/-- The `boolean_values` table of the source: option value paired with its
bare flag, in source order (including the misspelled `--keep_build`). -/
def rb_bool_pairs (cfg : RBConfig) : List (Bool × String) :=
  [(cfg.quiet, "--quiet"),
   (cfg.ignore_recipe_variants, "--ignore-recipe-variants"),
   (cfg.render_only, "--render-only"),
   (cfg.with_solve, "--with-solve"),
   (cfg.keep_build, "--keep_build"),
   (cfg.no_build_id, "--no-build-id"),
   (cfg.experimental, "--experimental"),
   (cfg.no_include_recipe, "--no-include-recipe"),
   (cfg.color_build_log, "--color-build-log")]

/-- Bare boolean flags, emitted exactly when their option is true. -/
def rb_booleans (cfg : RBConfig) : List String :=
  (rb_bool_pairs cfg).flatMap (fun p => if p.1 then [p.2] else [])

/-- The deprecated `no_test` alias: its legacy flag is appended (after a
deprecation warning) when the option is true. -/
def rb_no_test (cfg : RBConfig) : List String :=
  if cfg.no_test then ["--no-test"] else []

/-- The `optional_values` table of the source: the already-stringified
optional value paired with its flag, in source order. -/
def rb_optional_pairs (cfg : RBConfig) : List (Option String × String) :=
  [(cfg.recipe_dir, "--recipe-dir"),
   (cfg.up_to, "--up-to"),
   (cfg.target_platform.map PLATFORM.str, "--target-platform"),
   (cfg.variant_config, "--variant-config"),
   (cfg.wrap_log_lines.map WrapLL.str, "--wrap-log-lines"),
   (cfg.compression_threads.map toString, "--compression-threads"),
   (cfg.noarch_build_platform.map PLATFORM.str, "--noarch-build-platform")]

/-- Optional scalar options: a `flag value` pair when set, nothing when
unset; the source passes every value through `shlex.quote(str(arg))`. -/
def rb_optional (cfg : RBConfig) : List String :=
  (rb_optional_pairs cfg).flatMap (fun p =>
    match p.1 with
    | some v => [p.2, shlex_quote v]
    | none => [])

/-- Repeated `--extra-meta key=value` pairs, each value shell-quoted. -/
def rb_extra_meta (cfg : RBConfig) : List String :=
  cfg.extra_meta.flatMap (fun kv => ["--extra-meta", shlex_quote (kv.1 ++ "=" ++ kv.2)])

/-- The compound package-format token: `format:level` when a compression
level is given, else just the format. -/
def pf_token (pf : PackageFormat) (c : Option Int) : String :=
  match c with
  | some l => pf.str ++ ":" ++ toString l
  | none => pf.str

/-- The trailing `--package-format` flag/value pair. -/
def rb_fmt (cfg : RBConfig) : List String :=
  ["--package-format", pf_token cfg.package_format cfg.package_compression]

/-- The complete argument vector built by `rattler_build` before spawning
the child process, as the concatenation of the emission phases in source
order. -/
def rattler_build_args (cwd conda_prefix : String) (cfg : RBConfig) : List String :=
  rb_base cwd conda_prefix cfg ++ rb_channels cfg ++ rb_verbose cfg ++
    rb_booleans cfg ++ rb_no_test cfg ++ rb_optional cfg ++
    rb_extra_meta cfg ++ rb_fmt cfg

/-! ## The optimized driver's reduced option surface. -/

/-- The simplified `test` option of `optimized_rattler_build`
(Python `bool | Literal["native"]`): `pfalse`/`ptrue` model the Python
booleans. -/
inductive OptTest where
  | pfalse | pnative | ptrue
deriving Repr, DecidableEq

/-- The simplified `skip_existing` option of `optimized_rattler_build`
(Python `bool | Literal["all"]`). -/
inductive OptSkip where
  | pfalse | ptrue | pall
deriving Repr, DecidableEq

/-- Python truthiness of the simplified skip-existing value (`False` is
falsy; `True` and `"all"` are truthy), used by `if skip_existing:`. -/
def OptSkip.truthy : OptSkip → Bool
  | .pfalse => false
  | .ptrue => true
  | .pall => true

/-- The `test_map` translation table of `optimized_rattler_build`. -/
def test_map : OptTest → TestStrategy
  | .pfalse => .skip
  | .pnative => .native
  | .ptrue => .nativeAndEmulated

/-- The `skip_existing_map` translation table of
`optimized_rattler_build`. -/
def skip_existing_map : OptSkip → SkipMode
  | .pfalse => .smNone
  | .ptrue => .smLocal
  | .pall => .smAll

/-- The parameter record of `optimized_rattler_build`. -/
structure OptCfg where
  recipe : String
  output_dir : String
  clean_bld_cache : Bool
  clean_src_cache : Bool
  run_conda_index : Bool
  check : Bool
  build_platform : PLATFORM
  target_platform : Option PLATFORM
  host_platform : PLATFORM
  channels : List String
  keep_build : Bool
  compression_threads : Int
  experimental : Bool
  extra_meta : List (String × String)
  package_format : PackageFormat
  package_compression : Option Int
  no_include_recipe : Bool
  test : OptTest
  skip_existing : OptSkip
  noarch_build_platform : Option PLATFORM
deriving Repr, DecidableEq

/-- The full configuration that `optimized_rattler_build` passes to
`rattler_build`: forwarded fields, the fixed overrides (json log style,
no wrapping, no color, ignore recipe variants), the defaults of the
removed arguments, and the two translation tables. -/
def optimized_call (o : OptCfg) : RBConfig :=
  { recipe := o.recipe
    recipe_dir := none
    up_to := none
    build_platform := o.build_platform
    target_platform := o.target_platform
    host_platform := o.host_platform
    channels := o.channels
    variant_config := none
    verbose := 0
    quiet := false
    ignore_recipe_variants := true
    log_style := .json
    render_only := false
    with_solve := false
    wrap_log_lines := some .wfalse
    color := .never
    keep_build := o.keep_build
    no_build_id := false
    compression_threads := some o.compression_threads
    experimental := o.experimental
    extra_meta := o.extra_meta
    package_format := o.package_format
    package_compression := o.package_compression
    no_include_recipe := o.no_include_recipe
    no_test := false
    test := test_map o.test
    color_build_log := false
    output_dir := o.output_dir
    skip_existing := skip_existing_map o.skip_existing
    noarch_build_platform := o.noarch_build_platform }

/-! ## The log reconciler and cache cleaner (`_clean_output`). -/

/-- The skip computation of `_clean_output`: `not_skipped` starts true and
becomes false only when skip-existing is truthy and the final log message
equals the formatted skip announcement for the variant. -/
def not_skipped_of (skip_existing : OptSkip) (variant lastMsg : String) : Bool :=
  !(skip_existing.truthy && (lastMsg == "Skipping build for " ++ variant))

/-- The package extension chosen from the package format (the unknown
format branch of the source is unreachable over the literal type). -/
def fmt_ext : PackageFormat → String
  | .tarBz2 => ".tar.bz2"
  | .conda => ".conda"

/-- The final step of `_clean_output`: recursive glob for the variant plus
extension under the output directory, succeeding only on exactly one
match. -/
def locate_artifact (fs : FS) (output_dir variant : String)
    (pf : PackageFormat) : Except PyErr String :=
  match rglobName fs output_dir (variant ++ fmt_ext pf) with
  | [m] => .ok m
  | ms => .error (.runtimeNoSinglePackage ms)

/-- The pure derivations of `_clean_output` before it touches the
filesystem, in source order: log event index 1 (a raw `IndexError` when
absent), its timestamp through `_get_local_ts`, the variant with the
build-variant prefix stripped, the build directory path, and the skip
status from the final log message. -/
structure CleanCtx where
  variant : String
  bld_dir : String
  not_skipped : Bool
deriving Repr, DecidableEq

/-- Derive variant, build directory and skip status from the log sequence
and configuration.  `package` stands for `_get_package_name(recipe)`, the
external YAML read whose failures propagate unchanged and are outside the
modelled claims; `tzOff` is the process-local fixed UTC offset consumed by
`_get_local_ts`. -/
def clean_ctx (cwd package output_dir : String) (skip_existing : OptSkip)
    (tzOff : Int) (logs : List LogEvent) : Except PyErr CleanCtx :=
  match logs[1]? with
  | none => .error .indexError
  | some variant_line =>
    match _get_local_ts variant_line.timestamp tzOff with
    | .error e => .error e
    | .ok timestamp =>
      let od := pyResolve cwd output_dir
      let variant := pyStripPfx variant_line.message BLD_PFX
      .ok ⟨variant,
           od ++ "/bld/rattler-build_" ++ package ++ "_" ++ toString timestamp,
           not_skipped_of skip_existing variant
             (logs.getLastD (Inhabited.default)).message⟩

/-- The not-skipped block of `_clean_output`: scan the log events after
index 1 for the first source-copy announcement (`next` over a generator,
raising a raw `StopIteration` when exhausted), take the first shell token
after the prefix (unpacking raises on an empty split), require the file to
exist, and unlink it when the source cache is being cleaned.  The result
is the filesystem after the block plus the exception it raised, if any. -/
def clean_src_step (not_skipped : Bool) (logs : List LogEvent)
    (clean_src_cache : Bool) (fs : FS) : FS × Option PyErr :=
  if not_skipped then
    match ((logs.drop 2).map LogEvent.message).find?
        (fun m => startsWithStr m SRC_PFX) with
    | none => (fs, some .stopIteration)
    | some src_msg =>
      match shlex_split_ws (pyStripPfx src_msg SRC_PFX) with
      | [] => (fs, some .valueErrorUnpack)
      | src_file :: _ =>
        if fs.isFile src_file then
          (if clean_src_cache then fs.unlink src_file else fs, none)
        else (fs, some .runtimeShouldNotHappen)
  else (fs, none)

/-- The directory-cleanup block of `_clean_output`: prune the source-cache
folder when empty (when cleaning the source cache), then remove the build
directory when it existed at check time and prune the `bld` folder when
empty (when cleaning the build cache). -/
def clean_dirs_step (od bld_dir : String)
    (bld_dir_exists clean_bld_cache clean_src_cache : Bool) (fs1 : FS) : FS :=
  let fs2 := if clean_src_cache then
      _remove_empty_folder fs1 (od ++ "/src_cache") else fs1
  if clean_bld_cache then
    _remove_empty_folder
      (if bld_dir_exists then fs2.rmtree bld_dir else fs2)
      (od ++ "/bld")
  else fs2

/-- The effectful part of `_clean_output` after the derivations: the
build-directory/skip consistency check (raising before any deletion), the
source-cache block, the directory-cleanup block, and the artifact glob.
Every Python exception leaves the filesystem exactly as the side effects
performed so far left it. -/
def _clean_output_fs (od : String) (ctx : CleanCtx) (pf : PackageFormat)
    (logs : List LogEvent) (clean_bld_cache clean_src_cache : Bool)
    (fs : FS) : FS × Except PyErr String :=
  let bld_dir_exists := fs.isDir ctx.bld_dir
  if bld_dir_exists != ctx.not_skipped then (fs, .error .valueErrorMismatch)
  else
    match clean_src_step ctx.not_skipped logs clean_src_cache fs with
    | (fs1, some e) => (fs1, .error e)
    | (fs1, none) =>
      let fs3 := clean_dirs_step od ctx.bld_dir bld_dir_exists
        clean_bld_cache clean_src_cache fs1
      (fs3, locate_artifact fs3 od ctx.variant pf)

/-- Model of `_clean_output`: derive the build session from the logs, then
reconcile and clean the filesystem, returning the final filesystem state
together with the located artifact or the Python exception raised. -/
def _clean_output (cwd package output_dir : String) (pf : PackageFormat)
    (skip_existing : OptSkip) (tzOff : Int) (logs : List LogEvent)
    (clean_bld_cache clean_src_cache : Bool) (fs : FS) :
    FS × Except PyErr String :=
  match clean_ctx cwd package output_dir skip_existing tzOff logs with
  | .error e => (fs, .error e)
  | .ok ctx =>
    _clean_output_fs (pyResolve cwd output_dir) ctx pf logs
      clean_bld_cache clean_src_cache fs

/-! ## The optimized driver.

The child process itself is external: its parsed log sequence and exit
code are inputs to the model.  The optional `conda_index` invocation is an
external indexing capability with no modelled filesystem effect. -/

/-- Model of `optimized_rattler_build` from the point where the child
process has returned `(logs, code)`.  The result is the filesystem state,
a record of the temporary log dump (name and content written) when one was
made, and the returned triple or the exception raised.  On a zero exit
code the cleaner runs; on a non-zero exit code no cleanup is attempted,
and with `check` set the logs are dumped to `tmpName` inside a
`NamedTemporaryFile` context that deletes the file when the block closes,
after which the fatal error referencing `tmpName` is raised. -/
def optimized_rattler_build (o : OptCfg) (cwd package : String) (tzOff : Int)
    (logs : List LogEvent) (code : Int) (tmpName : String) (fs : FS) :
    FS × Option (String × List LogEvent) ×
      Except PyErr (Option String × List LogEvent × Int) :=
  if code = 0 then
    match _clean_output cwd package o.output_dir o.package_format
        o.skip_existing tzOff logs o.clean_bld_cache o.clean_src_cache fs with
    | (fs1, .error e) => (fs1, none, .error e)
    | (fs1, .ok pkg) => (fs1, none, .ok (some pkg, logs, code))
  else if o.check then
    let fsOpen : FS := { fs with files := fs.files ++ [tmpName] }
    let fsClosed := fsOpen.unlink tmpName
    (fsClosed, some (tmpName, logs), .error (.runtimeFailedLogs tmpName))
  else (fs, none, .ok (none, logs, code))

/-! ## A second reading of the optional-value emission, following the
spec's words, for comparison with the source behaviour (claim C8). -/

/-- Modelled from the spec: the specification asserts that string-valued
optional options (recipe-dir, up-to, target-platform, wrap-log-lines,
noarch-build-platform) are shell-quoted individually while values of other
Python types (the `Path`-valued variant-config, the int-valued
compression-threads) are emitted unquoted.  This definition follows those
words; the source-derived `rb_optional` is compared against it. -/
def claim_rb_optional (cfg : RBConfig) : List String :=
  (match cfg.recipe_dir with
    | some v => ["--recipe-dir", shlex_quote v]
    | none => []) ++
  (match cfg.up_to with
    | some v => ["--up-to", shlex_quote v]
    | none => []) ++
  (match cfg.target_platform with
    | some v => ["--target-platform", shlex_quote v.str]
    | none => []) ++
  (match cfg.variant_config with
    | some v => ["--variant-config", v]
    | none => []) ++
  (match cfg.wrap_log_lines with
    | some v => ["--wrap-log-lines", shlex_quote v.str]
    | none => []) ++
  (match cfg.compression_threads with
    | some v => ["--compression-threads", toString v]
    | none => []) ++
  (match cfg.noarch_build_platform with
    | some v => ["--noarch-build-platform", shlex_quote v.str]
    | none => [])

/-! ## Shared concrete data for the closed instances. -/

/-- Variant-count announcement (log event index 0 of the examples). -/
def evFound : LogEvent := ⟨"2024-01-15T10:30:00.123456Z", "Found 1 variants"⟩

/-- Build-variant announcement (log event index 1 of the examples).  Its
timestamp 2024-01-15T10:30:00 UTC is epoch second 1705314600. -/
def evVariant : LogEvent :=
  ⟨"2024-01-15T10:30:00.123456Z", "Build variant: mypkg-1.0-py_0"⟩

/-- Source-copy announcement used by the not-skipped examples. -/
def evCopy : LogEvent :=
  ⟨"2024-01-15T10:30:01.000000Z",
   "Copying source from url: /out/src_cache/src.tar.gz"⟩

/-- Skip announcement used by the skipped examples. -/
def evSkip : LogEvent :=
  ⟨"2024-01-15T10:30:01.000000Z", "Skipping build for mypkg-1.0-py_0"⟩

/-- Filesystem before a not-skipped cleanup: build directory, source cache
file and the produced artifact all present under `/out`. -/
def fsBefore : FS :=
  ⟨["/out", "/out/bld", "/out/bld/rattler-build_mypkg_1705314600",
    "/out/src_cache"],
   ["/out/src_cache/src.tar.gz", "/out/mypkg-1.0-py_0.conda"]⟩

/-- Filesystem after that cleanup: only the output directory and the
artifact remain. -/
def fsAfter : FS := ⟨["/out"], ["/out/mypkg-1.0-py_0.conda"]⟩

/-! ## Claim C2: timestamp reconciliation. -/

/-- C2: for every timestamp string parsed from log event index 1, the
reconciler's `astimezone`/`fromutc` dance collapses to interpreting the
naive timestamp as UTC and truncating it to integer epoch seconds (the
local re-expression does not change the epoch value), independently of the
process-local offset — hence repeated calls in one process return the same
integer. -/
theorem claim_C2_local_ts (s : String) (d : NaiveDT) (o o' : Int)
    (h : strptime_iso_z s = some d) :
    _get_local_ts s o = .ok (truncTimestamp d.sec d.micros 0) ∧
    _get_local_ts s o = _get_local_ts s o' := by
  have hrun : ∀ z : Int, _get_local_ts s z = .ok (truncTimestamp d.sec d.micros 0) := by
    intro z
    simp only [_get_local_ts, h, astimezoneNaiveLocal, tzFromutc, truncTimestamp]
    norm_num
  exact ⟨hrun o, (hrun o).trans (hrun o').symm⟩

/-- C2 witness: the scenario timestamp parses to epoch second 1705314600
with 123456 microseconds, and two different local offsets give the same
truncated integer. -/
theorem claim_C2_witness :
    strptime_iso_z "2024-01-15T10:30:00.123456Z" = some ⟨1705314600, 123456⟩ ∧
    _get_local_ts "2024-01-15T10:30:00.123456Z" 7200 = .ok 1705314600 ∧
    _get_local_ts "2024-01-15T10:30:00.123456Z" 7200 =
      _get_local_ts "2024-01-15T10:30:00.123456Z" (-3600) :=
  ⟨by decide,
   ((claim_C2_local_ts "2024-01-15T10:30:00.123456Z" ⟨1705314600, 123456⟩
      7200 (-3600) (by decide)).1).trans (by decide),
   (claim_C2_local_ts "2024-01-15T10:30:00.123456Z" ⟨1705314600, 123456⟩
      7200 (-3600) (by decide)).2⟩

/-! ## Claim C5: artifact resolution. -/

/-- C5: the artifact is located by a recursive name glob for the variant
followed by the format extension (`.tar.bz2` for tar-bz2, `.conda` for
conda) under the output directory; exactly one match returns that path,
zero or several matches raise the fatal no-single-package error. -/
theorem claim_C5_locate (fs : FS) (od v : String) (pf : PackageFormat) :
    (fmt_ext .tarBz2 = ".tar.bz2" ∧ fmt_ext .conda = ".conda") ∧
    (∀ m, rglobName fs od (v ++ fmt_ext pf) = [m] →
      locate_artifact fs od v pf = .ok m) ∧
    ((rglobName fs od (v ++ fmt_ext pf)).length ≠ 1 →
      locate_artifact fs od v pf =
        .error (.runtimeNoSinglePackage (rglobName fs od (v ++ fmt_ext pf)))) := by
  refine ⟨⟨rfl, rfl⟩, ?_, ?_⟩
  · intro m h
    simp [locate_artifact, h]
  · intro h
    rcases hm : rglobName fs od (v ++ fmt_ext pf) with _ | ⟨a, _ | ⟨b, t⟩⟩
    · simp [locate_artifact, hm]
    · exact absurd (by simp [hm]) h
    · simp [locate_artifact, hm]

/-- C5 witness: a directory tree with exactly one file named
`v-1.conda` resolves to it; zero matches and two matches are fatal. -/
theorem claim_C5_witness :
    locate_artifact ⟨["/o"], ["/o/v-1.conda"]⟩ "/o" "v-1" .conda =
      .ok "/o/v-1.conda" ∧
    locate_artifact ⟨["/o"], []⟩ "/o" "v-1" .conda =
      .error (.runtimeNoSinglePackage []) ∧
    locate_artifact ⟨["/o", "/o/a", "/o/b"],
        ["/o/a/v-1.conda", "/o/b/v-1.conda"]⟩ "/o" "v-1" .conda =
      .error (.runtimeNoSinglePackage ["/o/a/v-1.conda", "/o/b/v-1.conda"]) :=
  ⟨(claim_C5_locate ⟨["/o"], ["/o/v-1.conda"]⟩ "/o" "v-1" .conda).2.1
      "/o/v-1.conda" (by decide),
   ((claim_C5_locate ⟨["/o"], []⟩ "/o" "v-1" .conda).2.2 (by decide)).trans
      (by decide),
   ((claim_C5_locate ⟨["/o", "/o/a", "/o/b"],
        ["/o/a/v-1.conda", "/o/b/v-1.conda"]⟩ "/o" "v-1" .conda).2.2
      (by decide)).trans (by decide)⟩

/-! ## Claim C7: the compound package-format token. -/

/-- C7: the package-format argument is the single token `format:level`
when a compression level is given and just `format` otherwise, emitted as
the final flag/value pair of the argument vector; in particular tar-bz2
with compression 5 encodes to `tar-bz2:5`. -/
theorem claim_C7_pkg_format (cwd cp : String) (cfg : RBConfig) :
    (∀ pf : PackageFormat, ∀ l : Int,
      pf_token pf (some l) = pf.str ++ ":" ++ toString l) ∧
    (∀ pf : PackageFormat, pf_token pf none = pf.str) ∧
    pf_token .tarBz2 (some 5) = "tar-bz2:5" ∧
    rattler_build_args cwd cp cfg =
      (rb_base cwd cp cfg ++ rb_channels cfg ++ rb_verbose cfg ++
       rb_booleans cfg ++ rb_no_test cfg ++ rb_optional cfg ++
       rb_extra_meta cfg) ++
      ["--package-format", pf_token cfg.package_format cfg.package_compression] := by
  refine ⟨fun pf l => rfl, fun pf => rfl, by decide, ?_⟩
  simp [rattler_build_args, rb_fmt, List.append_assoc]

/-! ## Claim C6: the optimized driver's translation tables. -/

/-- C6: the optimized driver translates its simplified test option by the
fixed table (the skip-requesting value `False` to `skip`, `native` to
`native`, `True` to `native-and-emulated`) and its simplified
skip-existing option by `False` to `none`, `True` to `local`, `all` to
`all`, and delegates to the full build function with exactly those
translated tokens in the always-emitted head of the argument vector. -/
theorem claim_C6_tables (cwd cp : String) (o : OptCfg) :
    ((test_map .pfalse).str = "skip" ∧ (test_map .pnative).str = "native" ∧
     (test_map .ptrue).str = "native-and-emulated") ∧
    ((skip_existing_map .pfalse).str = "none" ∧
     (skip_existing_map .ptrue).str = "local" ∧
     (skip_existing_map .pall).str = "all") ∧
    (optimized_call o).test = test_map o.test ∧
    (optimized_call o).skip_existing = skip_existing_map o.skip_existing ∧
    rattler_build_args cwd cp (optimized_call o) =
      ([rb_exec cwd cp, "build",
        "--recipe", pyResolve cwd o.recipe,
        "--build-platform", o.build_platform.str,
        "--host-platform", o.host_platform.str,
        "--log-style", "json",
        "--color", "never",
        "--test", (test_map o.test).str,
        "--output-dir", pyResolve cwd o.output_dir,
        "--skip-existing", (skip_existing_map o.skip_existing).str] : List String) ++
      (rb_channels (optimized_call o) ++ rb_verbose (optimized_call o) ++
       rb_booleans (optimized_call o) ++ rb_no_test (optimized_call o) ++
       rb_optional (optimized_call o) ++ rb_extra_meta (optimized_call o) ++
       rb_fmt (optimized_call o)) := by
  refine ⟨⟨rfl, rfl, rfl⟩, ⟨rfl, rfl, rfl⟩, rfl, rfl, ?_⟩
  simp [rattler_build_args, rb_base, optimized_call, LogStyle.str, Color.str,
    List.append_assoc]

/-! ## Claim C8: quoting of optional scalar values. -/

/-- A configuration whose only set optional scalar is the `Path`-valued
variant-config, with a space in the path. -/
def cfgC8 : RBConfig :=
  { recipe := "/r"
    recipe_dir := none
    up_to := none
    build_platform := .linux64
    target_platform := none
    host_platform := .linux64
    channels := []
    variant_config := some "/tmp/a b.yaml"
    verbose := 0
    quiet := false
    ignore_recipe_variants := false
    log_style := .fancy
    render_only := false
    with_solve := false
    wrap_log_lines := none
    color := .auto
    keep_build := false
    no_build_id := false
    compression_threads := none
    experimental := false
    extra_meta := []
    package_format := .conda
    package_compression := none
    no_include_recipe := false
    no_test := false
    test := .nativeAndEmulated
    color_build_log := false
    output_dir := "/out"
    skip_existing := .smNone
    noarch_build_platform := none }

/-- C8 counterexample: the claim says values of non-string types are
emitted unquoted, but the source passes every optional value through
`shlex.quote(str(arg))`: for the `Path`-valued variant-config
`/tmp/a b.yaml` the code emits the single-quoted token while the
spec-modelled emission leaves it bare, and the two tokens differ. -/
theorem claim_C8_counterexample :
    rb_optional cfgC8 =
      ["--variant-config", sqStr ++ "/tmp/a b.yaml" ++ sqStr] ∧
    claim_rb_optional cfgC8 = ["--variant-config", "/tmp/a b.yaml"] ∧
    sqStr ++ "/tmp/a b.yaml" ++ sqStr ≠ "/tmp/a b.yaml" := by decide

/-- C8 amended: each optional scalar option is emitted as a flag/value
pair exactly when it is set, and every value — string-valued or not — is
stringified and passed through `shlex.quote`, so quoting is visible
exactly when the string form contains characters outside the shell-safe
set (an int such as 5 is unchanged, a path containing a space is wrapped
in single quotes regardless of its Python type). -/
theorem claim_C8_amended (cfg : RBConfig) :
    (rb_optional cfg =
      (match cfg.recipe_dir with
        | some v => ["--recipe-dir", shlex_quote v]
        | none => []) ++
      (match cfg.up_to with
        | some v => ["--up-to", shlex_quote v]
        | none => []) ++
      (match cfg.target_platform.map PLATFORM.str with
        | some v => ["--target-platform", shlex_quote v]
        | none => []) ++
      (match cfg.variant_config with
        | some v => ["--variant-config", shlex_quote v]
        | none => []) ++
      (match cfg.wrap_log_lines.map WrapLL.str with
        | some v => ["--wrap-log-lines", shlex_quote v]
        | none => []) ++
      (match cfg.compression_threads.map toString with
        | some v => ["--compression-threads", shlex_quote v]
        | none => []) ++
      (match cfg.noarch_build_platform.map PLATFORM.str with
        | some v => ["--noarch-build-platform", shlex_quote v]
        | none => [])) ∧
    shlex_quote "5" = "5" ∧
    shlex_quote "/tmp/a b.yaml" = sqStr ++ "/tmp/a b.yaml" ++ sqStr := by
  refine ⟨?_, by decide, by decide⟩
  simp only [rb_optional, rb_optional_pairs, List.flatMap_cons, List.flatMap_nil,
    List.append_nil, List.append_assoc]

/-! ## Claim C4: the failure path of the optimized driver. -/

/-- The optimized configuration used by the failure-path instance
(`check` set, all defaults otherwise). -/
def cfgC4 : OptCfg :=
  { recipe := "/r"
    output_dir := "/out"
    clean_bld_cache := true
    clean_src_cache := true
    run_conda_index := true
    check := true
    build_platform := .linux64
    target_platform := none
    host_platform := .linux64
    channels := ["conda-forge"]
    keep_build := false
    compression_threads := 0
    experimental := false
    extra_meta := []
    package_format := .conda
    package_compression := none
    no_include_recipe := true
    test := .ptrue
    skip_existing := .ptrue
    noarch_build_platform := none }

/-- The same optimized configuration with `check` disabled. -/
def cfgC4nc : OptCfg :=
  { recipe := "/r"
    output_dir := "/out"
    clean_bld_cache := true
    clean_src_cache := true
    run_conda_index := true
    check := false
    build_platform := .linux64
    target_platform := none
    host_platform := .linux64
    channels := ["conda-forge"]
    keep_build := false
    compression_threads := 0
    experimental := false
    extra_meta := []
    package_format := .conda
    package_compression := none
    no_include_recipe := true
    test := .ptrue
    skip_existing := .ptrue
    noarch_build_platform := none }

/-- C4 at the failing input (exit code 1): no cleanup is attempted (the
filesystem is returned unchanged) and with `check` set the fatal error
references the temporary file name — but the logs were written into a
`NamedTemporaryFile` that is deleted when its `with` block closes, so the
referenced file does not exist in the final filesystem state (third
conjunct), contradicting the claimed persistence for inspection; without
`check` the driver returns the empty artifact slot with the logs and the
exit code. -/
theorem claim_C4_tempfile :
    optimized_rattler_build cfgC4 "/w" "mypkg" 0 [evFound, evVariant] 1
        "/tmp/tmp123" fsAfter =
      (fsAfter, some ("/tmp/tmp123", [evFound, evVariant]),
        .error (.runtimeFailedLogs "/tmp/tmp123")) ∧
    FS.isFile fsAfter "/tmp/tmp123" = false ∧
    optimized_rattler_build cfgC4nc "/w" "mypkg" 0
        [evFound, evVariant] 1 "/tmp/tmp123" fsAfter =
      (fsAfter, none, .ok (none, [evFound, evVariant], 1)) := by
  refine ⟨by decide, by decide, by decide⟩

/-! ## Helper lemmas about the reconciler's filesystem phase. -/

/-- When the build-directory existence disagrees with the not-skipped
flag, the filesystem phase raises the consistency error with the
filesystem untouched. -/
theorem clean_fs_mismatch (od : String) (ctx : CleanCtx) (pf : PackageFormat)
    (logs : List LogEvent) (cb cs : Bool) (fs : FS)
    (h : (fs.isDir ctx.bld_dir != ctx.not_skipped) = true) :
    _clean_output_fs od ctx pf logs cb cs fs = (fs, .error .valueErrorMismatch) := by
  simp [_clean_output_fs, h]

/-- A successful filesystem phase implies the consistency check passed:
the build directory existed exactly when the session was not skipped. -/
theorem clean_fs_ok_dir_eq (od : String) (ctx : CleanCtx) (pf : PackageFormat)
    (logs : List LogEvent) (cb cs : Bool) (fs fs1 : FS) (p : String)
    (h : _clean_output_fs od ctx pf logs cb cs fs = (fs1, .ok p)) :
    fs.isDir ctx.bld_dir = ctx.not_skipped := by
  by_cases hx : (fs.isDir ctx.bld_dir != ctx.not_skipped) = true
  · rw [clean_fs_mismatch od ctx pf logs cb cs fs hx] at h
    simp at h
  · simp only [bne_iff_ne, ne_eq, not_not] at hx
    exact hx

/-- `rmtree` removes the directory itself. -/
theorem rmtree_isDir_self (fs : FS) (p : String) :
    (fs.rmtree p).isDir p = false := by
  simp [FS.rmtree, FS.isDir]

/-- Pruning an empty folder never makes another directory appear. -/
theorem remove_empty_isDir_false (fs : FS) (x q : String)
    (h : fs.isDir q = false) :
    (_remove_empty_folder fs x).isDir q = false := by
  unfold _remove_empty_folder
  split
  · simp only [FS.isDir, List.contains, List.elem_eq_mem,
      decide_eq_false_iff_not] at h ⊢
    intro hq
    exact h (List.mem_of_mem_filter hq)
  · exact h

/-- After the directory-cleanup block of a not-skipped run that cleans the
build cache, the build directory is gone. -/
theorem clean_dirs_bld_false (od bld : String) (cs : Bool) (fs1 : FS) :
    (clean_dirs_step od bld true true cs fs1).isDir bld = false := by
  unfold clean_dirs_step
  simp only [if_true]
  exact remove_empty_isDir_false _ _ _ (rmtree_isDir_self _ _)

/-! ## Claim C1: the skip/build-directory consistency invariant. -/

/-- C1 counterexample: a skipped session (derived skip flag true, i.e.
`not_skipped = false`) with the build directory absent.  The claim calls
this a mismatch that must abort fatally with no deletion, but the source's
check is the inverted one — it accepts exactly this state and the run
completes successfully, returning the artifact. -/
theorem claim_C1_counterexample :
    clean_ctx "/w" "mypkg" "/out" .ptrue 0 [evFound, evVariant, evSkip] =
      .ok ⟨"mypkg-1.0-py_0", "/out/bld/rattler-build_mypkg_1705314600", false⟩ ∧
    FS.isDir fsAfter "/out/bld/rattler-build_mypkg_1705314600" = false ∧
    _clean_output "/w" "mypkg" "/out" .conda .ptrue 0 [evFound, evVariant, evSkip]
      true true fsAfter = (fsAfter, .ok "/out/mypkg-1.0-py_0.conda") := by
  refine ⟨by decide, by decide, by decide⟩

/-- C1 amended: the derived skip flag is true iff the computed build
directory does NOT exist on disk; whenever the skip flag equals the
existence bit the reconciliation aborts fatally with the consistency
error before performing any deletion (the filesystem is returned
untouched), and any successful run has the skip flag equal to the
negation of the existence bit. -/
theorem claim_C1_amended (cwd package output_dir : String) (pf : PackageFormat)
    (se : OptSkip) (tzOff : Int) (logs : List LogEvent) (cb cs : Bool)
    (fs : FS) (ctx : CleanCtx)
    (hctx : clean_ctx cwd package output_dir se tzOff logs = .ok ctx) :
    ((!ctx.not_skipped) = fs.isDir ctx.bld_dir →
      _clean_output cwd package output_dir pf se tzOff logs cb cs fs =
        (fs, .error .valueErrorMismatch)) ∧
    (∀ fs1 p,
      _clean_output cwd package output_dir pf se tzOff logs cb cs fs =
        (fs1, .ok p) →
      (!ctx.not_skipped) = !(fs.isDir ctx.bld_dir)) := by
  constructor
  · intro hmm
    unfold _clean_output
    simp only [hctx]
    apply clean_fs_mismatch
    cases hn : ctx.not_skipped <;> simp_all
  · intro fs1 p h
    unfold _clean_output at h
    simp only [hctx] at h
    have hde := clean_fs_ok_dir_eq (pyResolve cwd output_dir) ctx pf logs
      cb cs fs fs1 p h
    rw [hde]

/-- C1 witness: a skipped session whose build directory does exist (the
amended mismatch) aborts with the consistency error and no deletion. -/
theorem claim_C1_witness :
    (_clean_output "/w" "mypkg" "/out" .conda .ptrue 0 [evFound, evVariant, evSkip]
      true true ⟨["/out", "/out/bld", "/out/bld/rattler-build_mypkg_1705314600"], []⟩ =
      (⟨["/out", "/out/bld", "/out/bld/rattler-build_mypkg_1705314600"], []⟩,
       .error .valueErrorMismatch)) ∧
    (!(⟨"mypkg-1.0-py_0", "/out/bld/rattler-build_mypkg_1705314600", false⟩ :
        CleanCtx).not_skipped) =
      !(FS.isDir fsAfter "/out/bld/rattler-build_mypkg_1705314600") :=
  ⟨(claim_C1_amended "/w" "mypkg" "/out" .conda .ptrue 0
      [evFound, evVariant, evSkip] true true
      ⟨["/out", "/out/bld", "/out/bld/rattler-build_mypkg_1705314600"], []⟩
      ⟨"mypkg-1.0-py_0", "/out/bld/rattler-build_mypkg_1705314600", false⟩
      (by decide)).1 (by decide),
   (claim_C1_amended "/w" "mypkg" "/out" .conda .ptrue 0
      [evFound, evVariant, evSkip] true true fsAfter
      ⟨"mypkg-1.0-py_0", "/out/bld/rattler-build_mypkg_1705314600", false⟩
      (by decide)).2 fsAfter "/out/mypkg-1.0-py_0.conda" (by decide)⟩

/-! ## Claim C3: idempotence of the cleanup. -/

/-- C3 counterexample: a first not-skipped invocation succeeds and removes
the build directory and source-cache file, but a second invocation with
the same configuration and logs on the already-cleaned state is not a
no-op — it raises the build-directory consistency error. -/
theorem claim_C3_counterexample :
    _clean_output "/w" "mypkg" "/out" .conda .ptrue 0 [evFound, evVariant, evCopy]
      true true fsBefore = (fsAfter, .ok "/out/mypkg-1.0-py_0.conda") ∧
    _clean_output "/w" "mypkg" "/out" .conda .ptrue 0 [evFound, evVariant, evCopy]
      true true fsAfter = (fsAfter, .error .valueErrorMismatch) := by
  refine ⟨by decide, by decide⟩

/-- C3 amended: the individual deletions are existence-guarded, but the
operation as a whole is not idempotent in the claim's premise: after a
first invocation that succeeded on a not-skipped session with build-cache
cleaning enabled (hence removed the build directory and source-cache
file), a second invocation with the same configuration and logs fails
fatally at the build-directory consistency check, performing no further
deletion (the filesystem is returned unchanged). -/
theorem claim_C3_amended (cwd package output_dir : String) (pf : PackageFormat)
    (se : OptSkip) (tzOff : Int) (logs : List LogEvent) (cs : Bool)
    (fs fs1 : FS) (p : String) (ctx : CleanCtx)
    (hctx : clean_ctx cwd package output_dir se tzOff logs = .ok ctx)
    (hn : ctx.not_skipped = true)
    (h : _clean_output cwd package output_dir pf se tzOff logs true cs fs =
      (fs1, .ok p)) :
    _clean_output cwd package output_dir pf se tzOff logs true cs fs1 =
      (fs1, .error .valueErrorMismatch) := by
  unfold _clean_output at h ⊢
  simp only [hctx] at h ⊢
  have hex : fs.isDir ctx.bld_dir = ctx.not_skipped :=
    clean_fs_ok_dir_eq (pyResolve cwd output_dir) ctx pf logs true cs fs fs1 p h
  -- dissect the successful run to find the final filesystem shape
  unfold _clean_output_fs at h
  simp only [hex, bne_self_eq_false, Bool.false_eq_true, if_false] at h
  rcases hs : clean_src_step ctx.not_skipped logs cs fs with ⟨fsA, oe⟩
  rw [hs] at h
  cases oe with
  | some e => simp at h
  | none =>
    simp only [Prod.mk.injEq] at h
    have hfs1 : clean_dirs_step (pyResolve cwd output_dir) ctx.bld_dir
        ctx.not_skipped true cs fsA = fs1 := h.1
    have hb : fs1.isDir ctx.bld_dir = false := by
      rw [← hfs1, hn]
      exact clean_dirs_bld_false _ _ _ _
    apply clean_fs_mismatch
    rw [hb, hn]
    rfl

/-- C3 witness: the concrete not-skipped cleanup applied twice through the
amended statement. -/
theorem claim_C3_witness :
    _clean_output "/w" "mypkg" "/out" .conda .ptrue 0 [evFound, evVariant, evCopy]
      true true fsAfter = (fsAfter, .error .valueErrorMismatch) :=
  claim_C3_amended "/w" "mypkg" "/out" .conda .ptrue 0
    [evFound, evVariant, evCopy] true fsBefore fsAfter
    "/out/mypkg-1.0-py_0.conda"
    ⟨"mypkg-1.0-py_0", "/out/bld/rattler-build_mypkg_1705314600", true⟩
    (by decide) (by decide) (by decide)

/-! ## Claim C10: partiality of the reconciler's public interface. -/

/-- C10: called with fewer than two log events the reconciler fails with
the raw index error from `logs[1]`; called in the not-skipped case (with
the consistency check passing) when no event after index 1 carries the
source-copy prefix, it fails with the raw iterator-exhaustion error from
`next`, rather than returning normally or raising a descriptive invariant
error. -/
theorem claim_C10_raw_errors (cwd package output_dir : String) (pf : PackageFormat)
    (se : OptSkip) (tzOff : Int) (logs : List LogEvent) (cb cs : Bool) (fs : FS) :
    (logs.length < 2 →
      _clean_output cwd package output_dir pf se tzOff logs cb cs fs =
        (fs, .error .indexError)) ∧
    (∀ ctx, clean_ctx cwd package output_dir se tzOff logs = .ok ctx →
      ctx.not_skipped = true →
      fs.isDir ctx.bld_dir = true →
      ((logs.drop 2).map LogEvent.message).find?
          (fun m => startsWithStr m SRC_PFX) = none →
      _clean_output cwd package output_dir pf se tzOff logs cb cs fs =
        (fs, .error .stopIteration)) := by
  constructor
  · intro hlen
    have hnone : logs[1]? = none := by
      apply List.getElem?_eq_none
      omega
    unfold _clean_output clean_ctx
    simp [hnone]
  · intro ctx hctx hn hdir hfind
    unfold _clean_output
    simp only [hctx]
    unfold _clean_output_fs clean_src_step
    rw [List.map_drop] at hfind
    simp [hdir, hn, hfind]

/-- C10 witness: the empty log sequence raises the index error, and a
two-event not-skipped sequence with no source-copy line and an existing
build directory raises the iterator-exhaustion error. -/
theorem claim_C10_witness :
    _clean_output "/w" "mypkg" "/out" .conda .pfalse 0 [] true true fsAfter =
      (fsAfter, .error .indexError) ∧
    _clean_output "/w" "mypkg" "/out" .conda .pfalse 0 [evFound, evVariant]
      true true
      ⟨["/out", "/out/bld", "/out/bld/rattler-build_mypkg_1705314600"], []⟩ =
      (⟨["/out", "/out/bld", "/out/bld/rattler-build_mypkg_1705314600"], []⟩,
       .error .stopIteration) :=
  ⟨(claim_C10_raw_errors "/w" "mypkg" "/out" .conda .pfalse 0 [] true true
      fsAfter).1 (by decide),
   (claim_C10_raw_errors "/w" "mypkg" "/out" .conda .pfalse 0 [evFound, evVariant]
      true true
      ⟨["/out", "/out/bld", "/out/bld/rattler-build_mypkg_1705314600"], []⟩).2
     ⟨"mypkg-1.0-py_0", "/out/bld/rattler-build_mypkg_1705314600", true⟩
     (by decide) (by decide) (by decide) (by decide)⟩

/-! ## Claim C9: the co-occurrence of the test flag and its deprecated
alias.  Helper facts first: no emitted token other than the flag itself
can collide with the literal `--test` (paths contain a slash, enum
spellings are fixed, the compound format token starts with the format
name), except through adversarial channel, optional or metadata values,
which the theorem excludes by hypothesis. -/

/-- Two strings differ when one contains a character the other lacks. -/
theorem str_ne_of_mem_not_mem {c : Char} {s t : String}
    (hc : c ∈ s.data) (hnc : c ∉ t.data) : s ≠ t := by
  intro he
  exact hnc (he ▸ hc)

/-- A resolved path always contains a slash. -/
theorem slash_mem_pyResolve (cwd p : String) : '/' ∈ (pyResolve cwd p).data := by
  unfold pyResolve
  split
  · rename_i h
    rw [List.isPrefixOf_iff_prefix] at h
    rcases h with ⟨t, ht⟩
    rw [← ht]
    simp
  · rw [String.data_append, String.data_append]
    exact List.mem_append_left _ (List.mem_append_right _ (by decide))

/-- A resolved path is never the token `--test`. -/
theorem pyResolve_ne_test (cwd p : String) : pyResolve cwd p ≠ "--test" :=
  str_ne_of_mem_not_mem (slash_mem_pyResolve cwd p) (by decide)

/-- The resolved executable path is never the token `--test`. -/
theorem rb_exec_ne_test (cwd cp : String) : rb_exec cwd cp ≠ "--test" := by
  have h1 : '/' ∈ (rb_exec cwd cp).data := by
    unfold rb_exec
    rw [String.data_append]
    exact List.mem_append_right _ (by decide)
  exact str_ne_of_mem_not_mem h1 (by decide)

/-- Platform spellings are never `--test`. -/
theorem platform_str_ne_test (p : PLATFORM) : p.str ≠ "--test" := by
  cases p <;> decide

/-- Log-style spellings are never `--test`. -/
theorem logstyle_str_ne_test (x : LogStyle) : x.str ≠ "--test" := by
  cases x <;> decide

/-- Color spellings are never `--test`. -/
theorem color_str_ne_test (x : Color) : x.str ≠ "--test" := by
  cases x <;> decide

/-- Test-strategy spellings are never `--test`. -/
theorem teststrategy_str_ne_test (x : TestStrategy) : x.str ≠ "--test" := by
  cases x <;> decide

/-- Skip-mode spellings are never `--test`. -/
theorem skipmode_str_ne_test (x : SkipMode) : x.str ≠ "--test" := by
  cases x <;> decide

/-- An equation `a ++ t = b` makes the data of `a` a prefix of that of
`b`. -/
theorem data_prefix_of_append_eq (a t b : String) (h : a ++ t = b) :
    a.data <+: b.data := by
  have hd := congrArg String.data h
  rw [String.data_append] at hd
  exact ⟨t.data, hd⟩

/-- The compound package-format token is never `--test`. -/
theorem pf_token_ne_test (pf : PackageFormat) (c : Option Int) :
    pf_token pf c ≠ "--test" := by
  cases c with
  | none => cases pf <;> decide
  | some l =>
    intro he
    have hp := data_prefix_of_append_eq _ _ _ he
    cases pf
    · exact absurd hp (by decide)
    · exact absurd hp (by decide)

/-- C9: for every configuration whose free-form string values do not
themselves spell the token (channels, optional scalar values, metadata
pairs), the built argument list contains the `--test` flag exactly once —
also when the deprecated `no_test` option is set, in which case `--no-test`
is appended in addition, so both flags co-occur in one invocation. -/
theorem claim_C9_test_flags (cwd cp : String) (cfg : RBConfig)
    (h1 : "--test" ∉ cfg.channels)
    (h2 : (rb_optional_pairs cfg).all (fun pr =>
      match pr.1 with
      | some v => shlex_quote v != "--test"
      | none => true) = true)
    (h3 : cfg.extra_meta.all
      (fun kv => shlex_quote (kv.1 ++ "=" ++ kv.2) != "--test") = true) :
    List.count "--test" (rattler_build_args cwd cp cfg) = 1 ∧
    (cfg.no_test = true → "--no-test" ∈ rattler_build_args cwd cp cfg ∧
      "--test" ∈ rattler_build_args cwd cp cfg) := by
  have e1 : ((rb_exec cwd cp : String) == "--test") = false :=
    beq_eq_false_iff_ne.mpr (rb_exec_ne_test cwd cp)
  have e2 : (pyResolve cwd cfg.recipe == "--test") = false :=
    beq_eq_false_iff_ne.mpr (pyResolve_ne_test cwd cfg.recipe)
  have e3 : (cfg.build_platform.str == "--test") = false :=
    beq_eq_false_iff_ne.mpr (platform_str_ne_test cfg.build_platform)
  have e4 : (cfg.host_platform.str == "--test") = false :=
    beq_eq_false_iff_ne.mpr (platform_str_ne_test cfg.host_platform)
  have e5 : (cfg.log_style.str == "--test") = false :=
    beq_eq_false_iff_ne.mpr (logstyle_str_ne_test cfg.log_style)
  have e6 : (cfg.color.str == "--test") = false :=
    beq_eq_false_iff_ne.mpr (color_str_ne_test cfg.color)
  have e7 : (cfg.test.str == "--test") = false :=
    beq_eq_false_iff_ne.mpr (teststrategy_str_ne_test cfg.test)
  have e8 : (pyResolve cwd cfg.output_dir == "--test") = false :=
    beq_eq_false_iff_ne.mpr (pyResolve_ne_test cwd cfg.output_dir)
  have e9 : (cfg.skip_existing.str == "--test") = false :=
    beq_eq_false_iff_ne.mpr (skipmode_str_ne_test cfg.skip_existing)
  have hbase : List.count "--test" (rb_base cwd cp cfg) = 1 := by
    unfold rb_base
    simp +decide [List.count_cons, e1, e2, e3, e4, e5, e6, e7, e8, e9]
  have hch : List.count "--test" (rb_channels cfg) = 0 := by
    apply List.count_eq_zero_of_not_mem
    intro hmem
    unfold rb_channels at hmem
    rw [List.mem_flatMap] at hmem
    rcases hmem with ⟨c, hc, hm⟩
    simp at hm
    exact h1 (hm ▸ hc)
  have hv : List.count "--test" (rb_verbose cfg) = 0 := by
    apply List.count_eq_zero_of_not_mem
    intro hmem
    unfold rb_verbose at hmem
    rw [List.mem_replicate] at hmem
    exact absurd hmem.2 (by decide)
  have hb0 : List.count "--test" (rb_booleans cfg) = 0 := by
    apply List.count_eq_zero_of_not_mem
    intro hmem
    unfold rb_booleans at hmem
    rw [List.mem_flatMap] at hmem
    rcases hmem with ⟨pr, hpr, hm⟩
    have hflag : "--test" = pr.2 := by
      cases hb : pr.1
      · rw [hb] at hm
        simp at hm
      · rw [hb] at hm
        simp at hm
        exact hm
    unfold rb_bool_pairs at hpr
    simp only [List.mem_cons, List.not_mem_nil, or_false] at hpr
    rcases hpr with h|h|h|h|h|h|h|h|h <;> (rw [h] at hflag; simp at hflag)
  have hnt : List.count "--test" (rb_no_test cfg) = 0 := by
    unfold rb_no_test
    split <;> decide
  have hopt : List.count "--test" (rb_optional cfg) = 0 := by
    apply List.count_eq_zero_of_not_mem
    intro hmem
    unfold rb_optional at hmem
    rw [List.mem_flatMap] at hmem
    rcases hmem with ⟨pr, hpr, hm⟩
    rcases ho : pr.1 with _ | v
    · rw [ho] at hm
      simp at hm
    · rw [ho] at hm
      simp at hm
      rcases hm with hm | hm
      · unfold rb_optional_pairs at hpr
        simp only [List.mem_cons, List.not_mem_nil, or_false] at hpr
        rcases hpr with h|h|h|h|h|h|h <;> (rw [h] at hm; simp at hm)
      · have hall := List.all_eq_true.mp h2 pr hpr
        rw [ho] at hall
        simp only [bne_iff_ne, ne_eq] at hall
        exact hall hm.symm
  have hem : List.count "--test" (rb_extra_meta cfg) = 0 := by
    apply List.count_eq_zero_of_not_mem
    intro hmem
    unfold rb_extra_meta at hmem
    rw [List.mem_flatMap] at hmem
    rcases hmem with ⟨kv, hkv, hm⟩
    simp at hm
    have hall := List.all_eq_true.mp h3 kv hkv
    simp only [bne_iff_ne, ne_eq] at hall
    exact hall hm.symm
  have hf : List.count "--test" (rb_fmt cfg) = 0 := by
    apply List.count_eq_zero_of_not_mem
    intro hmem
    unfold rb_fmt at hmem
    simp at hmem
    exact (pf_token_ne_test cfg.package_format cfg.package_compression) hmem.symm
  constructor
  · unfold rattler_build_args
    simp only [List.count_append, hbase, hch, hv, hb0, hnt, hopt, hem, hf]
  · intro hset
    constructor
    · unfold rattler_build_args rb_no_test
      rw [hset]
      simp
    · unfold rattler_build_args rb_base
      simp

/-- A concrete configuration with the deprecated `no_test` option set. -/
def cfgC9 : RBConfig :=
  { recipe := "/r"
    recipe_dir := none
    up_to := none
    build_platform := .linux64
    target_platform := none
    host_platform := .linux64
    channels := ["conda-forge"]
    variant_config := none
    verbose := 1
    quiet := false
    ignore_recipe_variants := false
    log_style := .json
    render_only := false
    with_solve := false
    wrap_log_lines := none
    color := .never
    keep_build := false
    no_build_id := false
    compression_threads := none
    experimental := false
    extra_meta := []
    package_format := .conda
    package_compression := none
    no_include_recipe := false
    no_test := true
    test := .nativeAndEmulated
    color_build_log := false
    output_dir := "/out"
    skip_existing := .smNone
    noarch_build_platform := none }

/-- C9 witness: with `no_test` set, the argument list still carries
`--test` exactly once and carries `--no-test` in addition. -/
theorem claim_C9_witness :
    List.count "--test" (rattler_build_args "/w" "/c" cfgC9) = 1 ∧
    "--no-test" ∈ rattler_build_args "/w" "/c" cfgC9 ∧
    "--test" ∈ rattler_build_args "/w" "/c" cfgC9 :=
  ⟨(claim_C9_test_flags "/w" "/c" cfgC9 (by decide) (by decide) (by decide)).1,
   ((claim_C9_test_flags "/w" "/c" cfgC9 (by decide) (by decide) (by decide)).2
     rfl).1,
   ((claim_C9_test_flags "/w" "/c" cfgC9 (by decide) (by decide) (by decide)).2
     rfl).2⟩
